import Mathlib

/-!
Shallow embedding of the `tower-batch` request-batching middleware
(`src/tower-batch/src/service.rs`) together with the two auxiliary domain
types referenced by the claims (`zebra-chain`'s `Bctv14Proof` and
`zebra-network`'s internal `Request`).

Modelling conventions:
* machine integers are `Nat`;
* the tokio `mpsc` bounded channel is modelled explicitly with its documented
  permit semantics (a `Sender::poll_ready` reservation counts against the
  channel capacity and is exclusively usable by that sender handle, which is
  precisely the property the comment in `Batch::call` relies on);
* `oneshot` channels are modelled by fresh numeric slot ids, with a store
  mapping slot id to its state;
* the ambient pieces of the repository that are not under `src/`
  (`worker.rs`, `future.rs`, `message.rs`, the `BatchControl` enum) are
  modelled from the spec; each such definition carries a doc comment saying
  so.
-/

namespace TowerBatch

/-- Opaque tracing context (`tracing::Span`); the middleware only captures and
forwards it, so a numeric token suffices. -/
abbrev Span := Nat

/-- Result of polling a future or a service readiness check. -/
inductive Poll (α : Type) where
  | ready (a : α)
  | pending
  deriving DecidableEq, Repr

/-- Type-erased error surfaced by the middleware (`crate::BoxError`).
`svc e` is the boxed conversion (`Into<BoxError>`) of a wrapped-service error;
`workerClosed` is the generic "worker failed silently" error used when the
`Handle` holds no recorded error; `droppedRequest` is the "worker dropped the
request" error a `ResponseFuture` yields when its slot is dropped unwritten. -/
inductive BoxError (E : Type) where
  | svc (e : E)
  | workerClosed
  | droppedRequest
  deriving DecidableEq, Repr

/-- Shared observer of worker termination; `cellId` indexes the write-once
error cell shared by all clones of one `Batch` front-end. -/
structure Handle where
  cellId : Nat
  deriving DecidableEq, Repr

/-- Modelled from the spec: `Handle::get_error_on_closed` (`worker.rs` is not
under `src/`). Returns the terminal error recorded in the Handle's cell,
falling back to the generic "worker failed silently" error when the cell has
not been written. -/
def Handle.get_error_on_closed {E : Type} (cell : Option (BoxError E)) : BoxError E :=
  cell.getD BoxError.workerClosed

/-- Modelled from the spec: `Message` (`message.rs` is not under `src/`): the
caller's request, the captured trace context, and the sender side (`tx`) of a
fresh oneshot response slot, identified by its numeric slot id. -/
structure Message (Req : Type) where
  request : Req
  span : Span
  tx : Nat
  deriving DecidableEq, Repr

/-- Bounded mpsc channel state (tokio `mpsc::channel`): the buffered messages,
the number of outstanding `poll_ready` permits, and whether the receiving end
has been closed (the Worker exited). Outstanding permits count against
`capacity` together with the buffer. -/
structure Channel (M : Type) where
  capacity : Nat
  buffer : List M
  reservedPermits : Nat
  closed : Bool
  deriving DecidableEq, Repr

/-- Default channel used for an out-of-range queue id: behaves as closed. -/
def Channel.closedDefault {M : Type} : Channel M :=
  { capacity := 0, buffer := [], reservedPermits := 0, closed := true }

/-- Error of tokio's `Sender::try_send`, returning the unsent message. -/
inductive TrySendError (M : Type) where
  | full (m : M)
  | closed (m : M)
  deriving DecidableEq, Repr

/-- tokio `mpsc::Sender::poll_ready` for a sender handle whose current permit
flag is `reserved`: errors if the channel is closed; otherwise reports ready
once a permit is held (acquiring one when capacity allows), and pending when
the channel is full. Returns the poll result, the updated channel and the
updated permit flag. -/
def Channel.sender_poll_ready {M : Type} (ch : Channel M) (reserved : Bool) :
    Poll (Except Unit Unit) × Channel M × Bool :=
  if ch.closed then (Poll.ready (Except.error ()), ch, reserved)
  else if reserved then (Poll.ready (Except.ok ()), ch, true)
  else if ch.buffer.length + ch.reservedPermits < ch.capacity then
    (Poll.ready (Except.ok ()),
     { ch with reservedPermits := ch.reservedPermits + 1 }, true)
  else (Poll.pending, ch, reserved)

/-- tokio `mpsc::Sender::try_send`: fails with `closed` if the receiver is
gone; otherwise a sender holding a permit consumes it and always succeeds;
a sender without a permit succeeds only if capacity is free, else `full`. -/
def Channel.try_send {M : Type} (ch : Channel M) (reserved : Bool) (m : M) :
    Except (TrySendError M) Unit × Channel M × Bool :=
  if ch.closed then (Except.error (TrySendError.closed m), ch, reserved)
  else if reserved then
    (Except.ok (),
     { ch with buffer := ch.buffer ++ [m],
               reservedPermits := ch.reservedPermits - 1 }, false)
  else if ch.buffer.length + ch.reservedPermits < ch.capacity then
    (Except.ok (), { ch with buffer := ch.buffer ++ [m] }, false)
  else (Except.error (TrySendError.full m), ch, reserved)

/-- Ambient system state shared by front-end clones: the mpsc queues (by queue
id), the Handle error cells (by cell id), the number of spawned Worker tasks,
and the next fresh oneshot slot id. -/
structure SysState (Req E : Type) where
  queues : List (Channel (Message Req))
  cells : List (Option (BoxError E))
  workers : Nat
  nextOneshot : Nat
  deriving DecidableEq, Repr

/-- The `Batch` front-end (`service.rs`): the sender side of the shared queue
(queue id plus this handle's permit flag) and the cloned `Handle`. -/
structure Batch where
  txQueue : Nat
  txReserved : Bool
  handle : Handle
  deriving DecidableEq, Repr

/-- `Batch::new` (`service.rs` lines 40-52): creates the bounded queue with
`mpsc::channel(1)`, creates the Handle/Worker pair and spawns the worker task
(`tokio::spawn(worker.run())`), recorded here as incrementing the spawned
worker count. `max_items` and `max_latency` configure the spawned Worker's
batching policy and do not affect the front-end state. -/
def Batch.new {Req E : Type} (st : SysState Req E) (max_items : Nat)
    (max_latency : Nat) : Batch × SysState Req E :=
  let _ := max_items
  let _ := max_latency
  let qid := st.queues.length
  let cid := st.cells.length
  ({ txQueue := qid, txReserved := false, handle := { cellId := cid } },
   { st with
       queues := st.queues ++
         [{ capacity := 1, buffer := [], reservedPermits := 0, closed := false }],
       cells := st.cells ++ [none],
       workers := st.workers + 1 })

/-- `Batch::get_worker_error` (`service.rs` lines 54-57):
`self.handle.get_error_on_closed()`. -/
def Batch.get_worker_error {Req E : Type} (st : SysState Req E) (b : Batch) :
    BoxError E :=
  Handle.get_error_on_closed (st.cells.getD b.handle.cellId none)

/-- `Batch::poll_ready` (`service.rs` lines 68-75): polls the queue sender for
a slot; if that errors (receiver closed, Worker exited) returns the Handle's
terminal error, otherwise ready; `ready!` propagates `pending`. -/
def Batch.poll_ready {Req E : Type} (st : SysState Req E) (b : Batch) :
    Poll (Except (BoxError E) Unit) × SysState Req E × Batch :=
  let ch := st.queues.getD b.txQueue Channel.closedDefault
  match ch.sender_poll_ready b.txReserved with
  | (Poll.pending, ch2, r2) =>
      (Poll.pending,
       { st with queues := st.queues.set b.txQueue ch2 },
       { b with txReserved := r2 })
  | (Poll.ready (Except.error _), ch2, r2) =>
      (Poll.ready (Except.error (Batch.get_worker_error st b)),
       { st with queues := st.queues.set b.txQueue ch2 },
       { b with txReserved := r2 })
  | (Poll.ready (Except.ok _), ch2, r2) =>
      (Poll.ready (Except.ok ()),
       { st with queues := st.queues.set b.txQueue ch2 },
       { b with txReserved := r2 })

/-- Modelled from the spec: `ResponseFuture` (`future.rs` is not under
`src/`): either wraps the response slot's reader (`ResponseFuture::new(rx)`),
or is pre-failed with a supplied error (`ResponseFuture::failed(error)`). -/
inductive ResponseFuture (E : Type) where
  | new (rx : Nat)
  | failed (e : BoxError E)
  deriving DecidableEq, Repr

/-- Outcome of `Batch::call`: either the Rust code panics (the `Full` branch)
or it returns a `ResponseFuture`. -/
inductive CallOutcome (E : Type) where
  | panicked (msg : String)
  | returned (f : ResponseFuture E)
  deriving DecidableEq, Repr

/-- `Batch::call` (`service.rs` lines 77-105): allocates a fresh oneshot
channel, captures the current span, builds the `Message` and tries a
non-blocking send. `Closed` yields a pre-failed future carrying the Handle's
terminal error; `Full` is a fatal programming error (`panic!`); success
returns a `ResponseFuture` wrapping the oneshot receiver. The current span is
passed explicitly since the embedding has no ambient task context. -/
def Batch.call {Req E : Type} (st : SysState Req E) (b : Batch) (span : Span)
    (request : Req) : CallOutcome E × SysState Req E × Batch :=
  let txId := st.nextOneshot
  let st1 := { st with nextOneshot := st.nextOneshot + 1 }
  let msg : Message Req := { request := request, span := span, tx := txId }
  let ch := st1.queues.getD b.txQueue Channel.closedDefault
  match ch.try_send b.txReserved msg with
  | (Except.error (TrySendError.closed _), ch2, r2) =>
      (CallOutcome.returned (ResponseFuture.failed (Batch.get_worker_error st1 b)),
       { st1 with queues := st1.queues.set b.txQueue ch2 },
       { b with txReserved := r2 })
  | (Except.error (TrySendError.full _), ch2, r2) =>
      (CallOutcome.panicked "buffer full; poll_ready must be called first",
       { st1 with queues := st1.queues.set b.txQueue ch2 },
       { b with txReserved := r2 })
  | (Except.ok _, ch2, r2) =>
      (CallOutcome.returned (ResponseFuture.new txId),
       { st1 with queues := st1.queues.set b.txQueue ch2 },
       { b with txReserved := r2 })

/-- `impl Clone for Batch` (`service.rs` lines 108-118): clones the queue
sender (same queue, and a fresh sender handle holds no permit) and the Handle
(same error cell). The original is not modified. -/
def Batch.clone (b : Batch) : Batch :=
  { txQueue := b.txQueue, txReserved := false, handle := b.handle }

/-- Modelled from the spec: `BatchControl` (defined outside `src/`): the
two-variant protocol sent to the wrapped service, `Item(request)` for each
individual request and `Flush` as the batch-boundary marker. -/
inductive BatchControl (Req : Type) where
  | item (r : Req)
  | flush
  deriving DecidableEq, Repr

deriving instance DecidableEq for Except

/-- State of a oneshot response slot: not yet written, written exactly once
with a result, or dropped without being written. -/
inductive OneshotState (E Resp : Type) where
  | pendingSlot
  | written (r : Except (BoxError E) Resp)
  | dropped
  deriving DecidableEq, Repr

/-- Modelled from the spec: polling a `ResponseFuture` against a store of
oneshot slot states. A pre-failed future is already resolved with its error; a
wrapping future resolves once its slot is written, and fails with the "worker
dropped the request" error if the slot was dropped unwritten. -/
def ResponseFuture.pollFut {E Resp : Type} (f : ResponseFuture E)
    (store : Nat → OneshotState E Resp) : Poll (Except (BoxError E) Resp) :=
  match f with
  | ResponseFuture.failed e => Poll.ready (Except.error e)
  | ResponseFuture.new rx =>
      match store rx with
      | OneshotState.pendingSlot => Poll.pending
      | OneshotState.written r => Poll.ready r
      | OneshotState.dropped => Poll.ready (Except.error BoxError.droppedRequest)

/-- Modelled from the spec: the Worker loop (`worker.rs` is not under `src/`),
flattened over the finite FIFO sequence of messages it will receive before all
producers drop. `svc` is the wrapped service; `n` counts items in the current
not-yet-flushed batch. Each `Item` result is routed into that message's slot;
when the count reaches `max_items` a `Flush` is sent; a partial batch is
flushed before clean termination; any service error is recorded in the Handle
cell, the failing message (for an `Item` error) and every
already-enqueued-but-not-yet-responded message are failed with the same boxed
error, and the Worker stops. Returns the slot resolutions (slot id paired with
the written result, in order) and the final Handle cell contents. -/
def runWorker {Req E Resp : Type} (svc : BatchControl Req → Except E Resp)
    (max_items : Nat) :
    List (Message Req) → Nat →
      List (Nat × Except (BoxError E) Resp) × Option (BoxError E)
  | [], 0 => ([], none)
  | [], _ + 1 =>
      match svc BatchControl.flush with
      | Except.ok _ => ([], none)
      | Except.error e => ([], some (BoxError.svc e))
  | m :: rest, n =>
      match svc (BatchControl.item m.request) with
      | Except.error e =>
          ((m.tx, Except.error (BoxError.svc e)) ::
             rest.map (fun m2 => (m2.tx, Except.error (BoxError.svc e))),
           some (BoxError.svc e))
      | Except.ok resp =>
          if n + 1 = max_items then
            match svc BatchControl.flush with
            | Except.error e =>
                ((m.tx, Except.ok resp) ::
                   rest.map (fun m2 => (m2.tx, Except.error (BoxError.svc e))),
                 some (BoxError.svc e))
            | Except.ok _ =>
                let rc := runWorker svc max_items rest 0
                ((m.tx, Except.ok resp) :: rc.1, rc.2)
          else
            let rc := runWorker svc max_items rest (n + 1)
            ((m.tx, Except.ok resp) :: rc.1, rc.2)

/-- Oneshot store induced by a list of Worker resolutions: a slot that was
resolved is `written`, a slot the Worker never reached is `dropped` (the
Worker owning it exited). -/
def storeOf {E Resp : Type} (rs : List (Nat × Except (BoxError E) Resp)) :
    Nat → OneshotState E Resp :=
  fun i =>
    match rs.find? (fun p => p.1 == i) with
    | some p => OneshotState.written p.2
    | none => OneshotState.dropped

end TowerBatch

namespace ZebraChain

/-- Rust `<[u8]>::copy_from_slice` specialised to byte lists: replaces the
destination's contents with the source's when the lengths match (the
length-mismatch panic is unreachable at the one call site, where both slices
have length 296). -/
def copy_from_slice (dst src : List Nat) : List Nat :=
  if dst.length = src.length then src else dst

/-- `Bctv14Proof` (`src/zebra-chain/src/proofs/bctv14.rs`): an encoding of a
BCTV14 proof as 296 bytes. -/
structure Bctv14Proof where
  bytes : List Nat
  len : bytes.length = 296

/-- `impl Clone for Bctv14Proof` (bctv14.rs lines 18-24): allocates a zeroed
296-byte array and copies all 296 bytes of `self` into it. -/
def Bctv14Proof.clone (p : Bctv14Proof) : Bctv14Proof :=
  { bytes := copy_from_slice (List.replicate 296 0) p.bytes,
    len := by
      have h : (List.replicate 296 (0 : Nat)).length = p.bytes.length := by
        rw [List.length_replicate, p.len]
      simp only [copy_from_slice, if_pos h]
      exact p.len }

/-- `impl PartialEq for Bctv14Proof` (bctv14.rs lines 26-30): slice equality
`self.0[..] == other.0[..]`, comparing lengths and all elements. -/
def Bctv14Proof.eq (a b : Bctv14Proof) : Bool :=
  a.bytes == b.bytes

end ZebraChain

namespace ZebraNetwork

/-- `zebra_chain::block::BlockHeaderHash` (its defining file is not under
`src/`): treated as an abstract value with decidable equality, which is all
the `HashSet` payload requires. -/
structure BlockHeaderHash where
  val : Nat
  deriving DecidableEq, Repr

/-- `Nonce` (`types.rs` is not under `src/`): abstract numeric nonce. -/
abbrev Nonce := Nat

/-- `std::collections::HashSet`: a collection of distinct elements; the no
duplicate invariant is part of the type, as every `HashSet` operation
maintains it. -/
structure HSet (α : Type) [DecidableEq α] where
  elems : List α
  nodup : elems.Nodup

/-- `HashSet::insert`: adds the element only if it is not already present. -/
def HSet.insert {α : Type} [DecidableEq α] (s : HSet α) (a : α) : HSet α :=
  if h : a ∈ s.elems then s
  else { elems := a :: s.elems, nodup := List.nodup_cons.mpr ⟨h, s.nodup⟩ }

/-- The empty `HashSet`. -/
def HSet.empty {α : Type} [DecidableEq α] : HSet α :=
  { elems := [], nodup := List.nodup_nil }

/-- Collecting an iterator of possibly-duplicated elements into a `HashSet`
(`collect::<HashSet<_>>()`): repeated insertion, collapsing duplicates. -/
def HSet.ofList {α : Type} [DecidableEq α] (l : List α) : HSet α :=
  l.foldl HSet.insert HSet.empty

/-- `Request` (`src/zebra-network/src/protocol/internal/request.rs`): a
network request in internal format. `BlocksByHash` carries a `HashSet` of
block header hashes. -/
inductive Request where
  | Peers
  | Ping (n : Nonce)
  | BlocksByHash (hashes : HSet BlockHeaderHash)
  | FindBlocks (known_blocks : List BlockHeaderHash) (stop : Option BlockHeaderHash)

/-- The hashes carried by a `BlocksByHash` request (empty for the other
variants). -/
def Request.blocks_by_hash_payload : Request → List BlockHeaderHash
  | Request.BlocksByHash s => s.elems
  | _ => []

end ZebraNetwork

namespace TowerBatch

/-- Concrete state: one capacity-1 queue with one outstanding permit. -/
def exStReserved : SysState Nat Nat :=
  { queues := [{ capacity := 1, buffer := [], reservedPermits := 1, closed := false }],
    cells := [none], workers := 1, nextOneshot := 0 }

/-- Concrete front-end holding the permit of `exStReserved`'s queue. -/
def exBatchReserved : Batch :=
  { txQueue := 0, txReserved := true, handle := { cellId := 0 } }

/-- Concrete state: the capacity-1 queue already holds a buffered message. -/
def exStFull : SysState Nat Nat :=
  { queues := [{ capacity := 1,
                 buffer := [{ request := 9, span := 0, tx := 99 }],
                 reservedPermits := 0, closed := false }],
    cells := [none], workers := 1, nextOneshot := 1 }

/-- Concrete front-end holding no permit. -/
def exBatchPlain : Batch :=
  { txQueue := 0, txReserved := false, handle := { cellId := 0 } }

/-- Concrete state: closed queue, Handle cell recording a service error. -/
def exStClosedErr : SysState Nat Nat :=
  { queues := [{ capacity := 1, buffer := [], reservedPermits := 0, closed := true }],
    cells := [some (BoxError.svc 7)], workers := 1, nextOneshot := 0 }

/-- Concrete state: closed queue, Handle cell never written. -/
def exStClosedNone : SysState Nat Nat :=
  { queues := [{ capacity := 1, buffer := [], reservedPermits := 0, closed := true }],
    cells := [none], workers := 1, nextOneshot := 0 }

/-- Concrete state: open empty capacity-1 queue. -/
def exStOpen : SysState Nat Nat :=
  { queues := [{ capacity := 1, buffer := [], reservedPermits := 0, closed := false }],
    cells := [none], workers := 1, nextOneshot := 0 }

/-- Concrete wrapped service that succeeds on every item and flush. -/
def exSvcOk : BatchControl Nat → Except Nat Nat
  | BatchControl.item r => Except.ok r
  | BatchControl.flush => Except.ok 0

/-- Concrete FIFO message sequence with distinct oneshot slot ids. -/
def exMsgs : List (Message Nat) :=
  [{ request := 5, span := 0, tx := 10 }, { request := 6, span := 1, tx := 11 }]

end TowerBatch

namespace TowerBatch

theorem getD_concat_length {α : Type} (l : List α) (a d : α) :
    (l ++ [a]).getD l.length d = a := by
  rw [List.getD_append_right l [a] d l.length (Nat.le_refl _), Nat.sub_self]
  rfl

theorem queues_set_workers {Req E : Type} (st : SysState Req E) (i : Nat)
    (ch : Channel (Message Req)) :
    ({ st with queues := st.queues.set i ch } : SysState Req E).workers =
      st.workers := rfl

theorem poll_ready_preserves_layout {Req E : Type} (st : SysState Req E)
    (b : Batch) :
    (Batch.poll_ready st b).2.1.workers = st.workers ∧
    (Batch.poll_ready st b).2.1.queues.length = st.queues.length := by
  constructor <;>
    (unfold Batch.poll_ready; dsimp only; split <;> simp [List.length_set])

theorem call_preserves_layout {Req E : Type} (st : SysState Req E) (b : Batch)
    (span : Span) (req : Req) :
    (Batch.call st b span req).2.1.workers = st.workers ∧
    (Batch.call st b span req).2.1.queues.length = st.queues.length := by
  constructor <;>
    (unfold Batch.call; dsimp only; split <;> simp [List.length_set])

/-- Claim C5: `Batch::new` constructs a bounded queue of capacity exactly 1,
spawns exactly one Worker, and no other front-end operation (`poll_ready`,
`call`, `clone`) creates a queue or a Worker: they preserve the number of
queues and the spawned-worker count (`clone` does not touch the shared state
at all, being a pure function of the front-end value). -/
theorem new_capacity_one_single_worker {Req E : Type} (st : SysState Req E)
    (k d : Nat) :
    ((Batch.new st k d).2.queues.getD (Batch.new st k d).1.txQueue
        Channel.closedDefault).capacity = 1 ∧
    (Batch.new st k d).2.workers = st.workers + 1 ∧
    (Batch.new st k d).2.queues.length = st.queues.length + 1 ∧
    (∀ b, (Batch.poll_ready st b).2.1.workers = st.workers ∧
          (Batch.poll_ready st b).2.1.queues.length = st.queues.length) ∧
    (∀ b span req, (Batch.call st b span req).2.1.workers = st.workers ∧
          (Batch.call st b span req).2.1.queues.length = st.queues.length) := by
  refine ⟨?_, rfl, ?_, ?_, ?_⟩
  · show ((st.queues ++ [_]).getD st.queues.length Channel.closedDefault).capacity = 1
    rw [getD_concat_length]
  · simp [Batch.new]
  · intro b; exact poll_ready_preserves_layout st b
  · intro b span req; exact call_preserves_layout st b span req

theorem getD_set_self {α : Type} (l : List α) (i : Nat) (a d : α)
    (h : i < l.length) : (l.set i a).getD i d = a := by
  induction l generalizing i with
  | nil => cases h
  | cons x xs ih =>
      cases i with
      | zero => rfl
      | succ j => exact ih j (Nat.lt_of_succ_lt_succ h)

/-- Claim C2: a handle whose `poll_ready` reservation is still unconsumed
never observes a full queue in `call` (the held permit guarantees the send a
slot, so `call` returns a future), and whenever the non-blocking send does
report `Full`, `call` panics with the programming-error message instead of
returning a value. -/
theorem call_reserved_never_full {Req E : Type} (st : SysState Req E)
    (b : Batch) (span : Span) (req : Req) :
    (b.txReserved = true →
      ∃ f, (Batch.call st b span req).1 = CallOutcome.returned f) ∧
    ((st.queues.getD b.txQueue Channel.closedDefault).closed = false →
      b.txReserved = false →
      ¬ ((st.queues.getD b.txQueue Channel.closedDefault).buffer.length +
          (st.queues.getD b.txQueue Channel.closedDefault).reservedPermits <
          (st.queues.getD b.txQueue Channel.closedDefault).capacity) →
      (Batch.call st b span req).1 =
        CallOutcome.panicked "buffer full; poll_ready must be called first") := by
  constructor
  · intro h
    unfold Batch.call Channel.try_send
    dsimp only
    by_cases hc : (st.queues.getD b.txQueue Channel.closedDefault).closed
    · rw [List.getD_eq_getElem?_getD] at hc
      simp [hc, h]
    · rw [List.getD_eq_getElem?_getD] at hc
      simp [hc, h]
  · intro hc hr hfull
    unfold Batch.call Channel.try_send
    dsimp only
    rw [List.getD_eq_getElem?_getD] at hc
    simp only [List.getD_eq_getElem?_getD] at hfull
    simp [hc, hr, hfull]

/-- Claim C2 witness: with the queue slot reserved, `call` returns a future;
on an unreserved full queue, it panics. -/
theorem call_reserved_never_full_witness :
    (∃ f, (Batch.call exStReserved exBatchReserved 0 (0 : Nat)).1 =
        CallOutcome.returned f) ∧
    (Batch.call exStFull exBatchPlain 0 (0 : Nat)).1 =
      CallOutcome.panicked "buffer full; poll_ready must be called first" :=
  ⟨(call_reserved_never_full exStReserved exBatchReserved 0 0).1 rfl,
   (call_reserved_never_full exStFull exBatchPlain 0 0).2 rfl rfl (by decide)⟩

/-- Claim C3: `poll_ready` on a closed queue (Worker exited) returns the error
obtained from the Handle, which is the generic worker-failed error when the
Handle cell holds nothing; on an open queue it returns ready once a slot is
reserved (a held permit, or a free slot the poll reserves). -/
theorem poll_ready_closed_and_ready_cases {Req E : Type} (st : SysState Req E)
    (b : Batch) :
    ((st.queues.getD b.txQueue Channel.closedDefault).closed = true →
      (Batch.poll_ready st b).1 =
        Poll.ready (Except.error
          (Handle.get_error_on_closed (st.cells.getD b.handle.cellId none)))) ∧
    ((st.queues.getD b.txQueue Channel.closedDefault).closed = true →
      st.cells.getD b.handle.cellId none = none →
      (Batch.poll_ready st b).1 =
        Poll.ready (Except.error (BoxError.workerClosed))) ∧
    ((st.queues.getD b.txQueue Channel.closedDefault).closed = false →
      (b.txReserved = true ∨
        (st.queues.getD b.txQueue Channel.closedDefault).buffer.length +
          (st.queues.getD b.txQueue Channel.closedDefault).reservedPermits <
          (st.queues.getD b.txQueue Channel.closedDefault).capacity) →
      (Batch.poll_ready st b).1 = Poll.ready (Except.ok ())) := by
  refine ⟨?_, ?_, ?_⟩
  · intro hc
    rw [List.getD_eq_getElem?_getD] at hc
    unfold Batch.poll_ready Channel.sender_poll_ready Batch.get_worker_error
    dsimp only
    simp [hc]
  · intro hc hcell
    rw [List.getD_eq_getElem?_getD] at hc
    rw [List.getD_eq_getElem?_getD] at hcell
    unfold Batch.poll_ready Channel.sender_poll_ready Batch.get_worker_error
      Handle.get_error_on_closed
    dsimp only
    simp [hc, hcell]
  · intro hc hok
    rw [List.getD_eq_getElem?_getD] at hc
    simp only [List.getD_eq_getElem?_getD] at hok
    unfold Batch.poll_ready Channel.sender_poll_ready
    dsimp only
    rcases hok with h | h
    · simp [hc, h]
    · by_cases hr : b.txReserved
      · simp [hc, hr]
      · simp [hc, hr, h]

/-- Claim C3 witness: the three cases at concrete states — closed queue with a
recorded error, closed queue with an unwritten Handle cell, and an open queue
with a free slot. -/
theorem poll_ready_cases_witness :
    (Batch.poll_ready exStClosedErr exBatchPlain).1 =
      Poll.ready (Except.error (BoxError.svc 7)) ∧
    (Batch.poll_ready exStClosedNone exBatchPlain).1 =
      Poll.ready (Except.error BoxError.workerClosed) ∧
    (Batch.poll_ready exStOpen exBatchPlain).1 = Poll.ready (Except.ok ()) :=
  ⟨(poll_ready_closed_and_ready_cases exStClosedErr exBatchPlain).1 rfl,
   (poll_ready_closed_and_ready_cases exStClosedNone exBatchPlain).2.1 rfl rfl,
   (poll_ready_closed_and_ready_cases exStOpen exBatchPlain).2.2 rfl
     (Or.inr (by decide))⟩

/-- Claim C4: when `call`'s send fails because the queue is closed, the
request is not lost and cannot hang: `call` returns a `ResponseFuture` that is
pre-failed with the Handle's terminal error, and polling that future resolves
immediately with that error regardless of the oneshot store. -/
theorem call_closed_returns_failed_future {Req E Resp : Type}
    (st : SysState Req E) (b : Batch) (span : Span) (req : Req)
    (h : (st.queues.getD b.txQueue Channel.closedDefault).closed = true) :
    (Batch.call st b span req).1 =
      CallOutcome.returned
        (ResponseFuture.failed (Batch.get_worker_error st b)) ∧
    ∀ store : Nat → OneshotState E Resp,
      ResponseFuture.pollFut
          (ResponseFuture.failed (Batch.get_worker_error st b)) store =
        Poll.ready (Except.error (Batch.get_worker_error st b)) := by
  constructor
  · rw [List.getD_eq_getElem?_getD] at h
    unfold Batch.call Channel.try_send
    dsimp only
    simp [h, Batch.get_worker_error]
  · intro store
    rfl

/-- Claim C4 witness: at a concrete closed queue with a recorded service
error, `call` returns the pre-failed future carrying that error, and polling
it (here against an empty oneshot store) resolves immediately with it. -/
theorem call_closed_witness :
    (Batch.call exStClosedErr exBatchPlain 0 (0 : Nat)).1 =
      CallOutcome.returned (ResponseFuture.failed (BoxError.svc 7)) ∧
    ResponseFuture.pollFut (ResponseFuture.failed (BoxError.svc 7))
        (storeOf ([] : List (Nat × Except (BoxError Nat) Nat))) =
      Poll.ready (Except.error (BoxError.svc 7)) :=
  ⟨(@call_closed_returns_failed_future Nat Nat Nat exStClosedErr exBatchPlain
      0 0 rfl).1,
   (@call_closed_returns_failed_future Nat Nat Nat exStClosedErr exBatchPlain
      0 0 rfl).2 (storeOf [])⟩

/-- Claim C6: on an accepted send, `call` builds a `Message` carrying the
current trace context and a freshly allocated oneshot slot, enqueues exactly
that message, and returns a `ResponseFuture` wrapping the same slot's reader;
the fresh-slot allocator advances by one. -/
theorem call_success_wraps_fresh_slot {Req E : Type} (st : SysState Req E)
    (b : Batch) (span : Span) (req : Req)
    (hcl : (st.queues.getD b.txQueue Channel.closedDefault).closed = false)
    (hok : b.txReserved = true ∨
      (st.queues.getD b.txQueue Channel.closedDefault).buffer.length +
        (st.queues.getD b.txQueue Channel.closedDefault).reservedPermits <
        (st.queues.getD b.txQueue Channel.closedDefault).capacity) :
    (Batch.call st b span req).1 =
      CallOutcome.returned (ResponseFuture.new st.nextOneshot) ∧
    ((Batch.call st b span req).2.1.queues.getD b.txQueue
        Channel.closedDefault).buffer =
      (st.queues.getD b.txQueue Channel.closedDefault).buffer ++
        [{ request := req, span := span, tx := st.nextOneshot }] ∧
    (Batch.call st b span req).2.1.nextOneshot = st.nextOneshot + 1 := by
  have hlt : b.txQueue < st.queues.length := by
    by_contra hge
    push_neg at hge
    rw [List.getD_eq_default _ _ hge] at hcl
    simp [Channel.closedDefault] at hcl
  rw [List.getD_eq_getElem?_getD] at hcl
  simp only [List.getD_eq_getElem?_getD] at hok
  refine ⟨?_, ?_, ?_⟩
  · unfold Batch.call Channel.try_send
    dsimp only
    rcases hok with hr | hroom
    · simp [hcl, hr]
    · by_cases hrb : b.txReserved
      · simp [hcl, hrb]
      · simp [hcl, hrb, hroom]
  · unfold Batch.call Channel.try_send
    dsimp only
    rcases hok with hr | hroom
    · simp [hcl, hr, List.getElem?_set_self hlt]
    · by_cases hrb : b.txReserved
      · simp [hcl, hrb, List.getElem?_set_self hlt]
      · simp [hcl, hrb, hroom, List.getElem?_set_self hlt]
  · unfold Batch.call Channel.try_send
    dsimp only
    rcases hok with hr | hroom
    · simp [hcl, hr]
    · by_cases hrb : b.txReserved
      · simp [hcl, hrb]
      · simp [hcl, hrb, hroom]

/-- Claim C6 witness: on the open empty queue, `call` enqueues the message
carrying span 3, request 42 and fresh slot 0, and returns the future wrapping
slot 0. -/
theorem call_success_witness :
    (Batch.call exStOpen exBatchPlain 3 (42 : Nat)).1 =
      CallOutcome.returned (ResponseFuture.new 0) ∧
    ((Batch.call exStOpen exBatchPlain 3 (42 : Nat)).2.1.queues.getD 0
        Channel.closedDefault).buffer =
      [{ request := 42, span := 3, tx := 0 }] ∧
    (Batch.call exStOpen exBatchPlain 3 (42 : Nat)).2.1.nextOneshot = 1 :=
  call_success_wraps_fresh_slot exStOpen exBatchPlain 3 42 rfl
    (Or.inr (by decide))

/-- Claim C7: `Clone for Batch` produces a new front-end addressing the same
queue and the same Handle error cell as the original (hence the same single
Worker); the fresh sender handle holds no permit, and the original value is
not modified (`clone` reads `self` only). -/
theorem clone_shares_queue_and_handle (b : Batch) :
    (Batch.clone b).txQueue = b.txQueue ∧
    (Batch.clone b).handle = b.handle ∧
    (Batch.clone b).txReserved = false :=
  ⟨rfl, rfl, rfl⟩

theorem runWorker_ids {Req E Resp : Type}
    (svc : BatchControl Req → Except E Resp) (k : Nat) :
    ∀ (msgs : List (Message Req)) (n : Nat),
      (runWorker svc k msgs n).1.map Prod.fst = msgs.map Message.tx := by
  intro msgs
  induction msgs with
  | nil =>
      intro n
      cases n with
      | zero => simp [runWorker]
      | succ n2 =>
          unfold runWorker
          cases svc BatchControl.flush <;> simp
  | cons m rest ih =>
      intro n
      unfold runWorker
      cases hsv : svc (BatchControl.item m.request) with
      | error e => simp [List.map_map, Function.comp]
      | ok resp =>
          by_cases hk : n + 1 = k
          · cases hfl : svc BatchControl.flush with
            | error e => simp [hk, hfl, List.map_map, Function.comp]
            | ok u => simp [hk, hfl, ih]
          · simp [hk, ih]

theorem runWorker_error_resolutions_boxed {Req E Resp : Type}
    (svc : BatchControl Req → Except E Resp) (k : Nat) :
    ∀ (msgs : List (Message Req)) (n : Nat) (i : Nat) (er : BoxError E),
      (i, Except.error er) ∈ (runWorker svc k msgs n).1 →
      ∃ e0, er = BoxError.svc e0 := by
  intro msgs
  induction msgs with
  | nil =>
      intro n i er h
      cases n with
      | zero => simp [runWorker] at h
      | succ n2 =>
          unfold runWorker at h
          cases hfl : svc BatchControl.flush <;> simp [hfl] at h
  | cons m rest ih =>
      intro n i er h
      unfold runWorker at h
      cases hsv : svc (BatchControl.item m.request) with
      | error e =>
          rw [hsv] at h
          simp only [List.mem_cons, List.mem_map, Prod.mk.injEq,
            Except.error.injEq] at h
          rcases h with ⟨_, h2⟩ | ⟨m2, _, _, h2⟩
          · exact ⟨e, h2⟩
          · exact ⟨e, h2.symm⟩
      | ok resp =>
          rw [hsv] at h
          by_cases hk : n + 1 = k
          · cases hfl : svc BatchControl.flush with
            | error e =>
                simp [hk, hfl, List.mem_cons, List.mem_map, Prod.mk.injEq,
                  Except.error.injEq] at h
                rcases h with ⟨m2, _, _, h2⟩
                exact ⟨e, h2.symm⟩
            | ok u =>
                simp [hk, hfl, List.mem_cons, Prod.mk.injEq] at h
                exact ih 0 i er h
          · simp [hk, List.mem_cons, Prod.mk.injEq] at h
            exact ih (n + 1) i er h

theorem runWorker_cell_boxed {Req E Resp : Type}
    (svc : BatchControl Req → Except E Resp) (k : Nat) :
    ∀ (msgs : List (Message Req)) (n : Nat) (er : BoxError E),
      (runWorker svc k msgs n).2 = some er → ∃ e0, er = BoxError.svc e0 := by
  intro msgs
  induction msgs with
  | nil =>
      intro n er h
      cases n with
      | zero => simp [runWorker] at h
      | succ n2 =>
          unfold runWorker at h
          cases hfl : svc BatchControl.flush with
          | error e =>
              rw [hfl] at h
              exact ⟨e, (Option.some.inj h).symm⟩
          | ok u =>
              rw [hfl] at h
              cases h
  | cons m rest ih =>
      intro n er h
      unfold runWorker at h
      cases hsv : svc (BatchControl.item m.request) with
      | error e =>
          rw [hsv] at h
          exact ⟨e, (Option.some.inj h).symm⟩
      | ok resp =>
          rw [hsv] at h
          by_cases hk : n + 1 = k
          · cases hfl : svc BatchControl.flush with
            | error e =>
                simp [hk, hfl] at h
                exact ⟨e, h.symm⟩
            | ok u =>
                simp [hk, hfl] at h
                exact ih 0 er h
          · simp [hk] at h
            exact ih (n + 1) er h

theorem poll_ready_error_shape {Req E : Type} (st : SysState Req E) (b : Batch)
    (e : BoxError E)
    (h : (Batch.poll_ready st b).1 = Poll.ready (Except.error e)) :
    e = Batch.get_worker_error st b := by
  unfold Batch.poll_ready at h
  dsimp only at h
  split at h <;> simp_all

theorem call_failed_shape {Req E : Type} (st : SysState Req E) (b : Batch)
    (span : Span) (req : Req) (e : BoxError E)
    (h : (Batch.call st b span req).1 =
      CallOutcome.returned (ResponseFuture.failed e)) :
    e = Batch.get_worker_error st b := by
  unfold Batch.call at h
  dsimp only at h
  split at h <;> simp_all [Batch.get_worker_error]

/-- Claim C8: every error the Batch front-end surfaces — from `poll_ready`,
from a pre-failed future returned by `call`, from a Worker slot resolution, or
recorded in the Handle cell — is a value of the single type-erased error type:
either the boxed conversion of a wrapped-service error or the middleware's own
generic worker-failed error. The hypothesis says the Handle cell holds only
Worker-recorded (boxed) errors, which the third conjunct shows the Worker
maintains; the wrapped service's concrete error type never appears unboxed. -/
theorem surfaced_errors_are_boxed {Req E Resp : Type}
    (st : SysState Req E) (b : Batch) (span : Span) (req : Req)
    (e : BoxError E)
    (hwf : ∀ e2, st.cells.getD b.handle.cellId none = some e2 →
      ∃ e0, e2 = BoxError.svc e0) :
    (((Batch.poll_ready st b).1 = Poll.ready (Except.error e) ∨
      (Batch.call st b span req).1 =
        CallOutcome.returned (ResponseFuture.failed e)) →
      (∃ e0, e = BoxError.svc e0) ∨ e = BoxError.workerClosed) ∧
    (∀ (svc : BatchControl Req → Except E Resp) (k : Nat)
       (msgs : List (Message Req)) (n i : Nat) (er : BoxError E),
      (i, Except.error er) ∈ (runWorker svc k msgs n).1 →
      ∃ e0, er = BoxError.svc e0) ∧
    (∀ (svc : BatchControl Req → Except E Resp) (k : Nat)
       (msgs : List (Message Req)) (n : Nat) (er : BoxError E),
      (runWorker svc k msgs n).2 = some er →
      ∃ e0, er = BoxError.svc e0) := by
  refine ⟨?_, ?_, ?_⟩
  · intro hsurf
    have he : e = Batch.get_worker_error st b := by
      rcases hsurf with h | h
      · exact poll_ready_error_shape st b e h
      · exact call_failed_shape st b span req e h
    rw [he]
    unfold Batch.get_worker_error Handle.get_error_on_closed
    cases hcell : st.cells.getD b.handle.cellId none with
    | none => exact Or.inr rfl
    | some e2 =>
        rcases hwf e2 hcell with ⟨e0, rfl⟩
        exact Or.inl ⟨e0, rfl⟩
  · intro svc k msgs n i er h
    exact runWorker_error_resolutions_boxed svc k msgs n i er h
  · intro svc k msgs n er h
    exact runWorker_cell_boxed svc k msgs n er h

/-- Claim C8 witness: at a closed queue whose Handle cell is unwritten, the
error `poll_ready` surfaces is the generic boxed worker-failed error. -/
theorem surfaced_errors_are_boxed_witness :
    (∃ e0 : Nat, (BoxError.workerClosed : BoxError Nat) = BoxError.svc e0) ∨
      (BoxError.workerClosed : BoxError Nat) = BoxError.workerClosed :=
  (@surfaced_errors_are_boxed Nat Nat Nat exStClosedNone exBatchPlain 0 0
      BoxError.workerClosed (fun _ h => nomatch h)).1 (Or.inl (by decide))

/-- Claim C1: for every message accepted into the queue, over any complete
Worker execution, the message's response slot receives exactly one resolution
(the wrapped service's own result or a propagated boxed error), and the
`ResponseFuture` wrapping that slot therefore polls to a resolved value —
never left pending, never resolved twice. -/
theorem response_future_resolves_exactly_once {Req E Resp : Type}
    (svc : BatchControl Req → Except E Resp) (k : Nat)
    (msgs : List (Message Req)) (n : Nat)
    (hnd : (msgs.map Message.tx).Nodup) (m : Message Req) (hm : m ∈ msgs) :
    ((runWorker svc k msgs n).1.map Prod.fst).count m.tx = 1 ∧
    ResponseFuture.pollFut (ResponseFuture.new m.tx)
        (storeOf (runWorker svc k msgs n).1) ≠ Poll.pending := by
  have hids := runWorker_ids svc k msgs n
  constructor
  · rw [hids]
    exact List.count_eq_one_of_mem hnd (List.mem_map_of_mem Message.tx hm)
  · have hmem : m.tx ∈ (runWorker svc k msgs n).1.map Prod.fst := by
      rw [hids]; exact List.mem_map_of_mem Message.tx hm
    rcases List.mem_map.mp hmem with ⟨p, hp, hpe⟩
    have hfind :
        ((runWorker svc k msgs n).1.find? (fun q => q.1 == m.tx)) ≠ none := by
      intro hnone
      have := List.find?_eq_none.mp hnone p hp
      simp [hpe] at this
    rcases hOption : (runWorker svc k msgs n).1.find? (fun q => q.1 == m.tx)
      with _ | p2
    · exact absurd hOption hfind
    · simp [ResponseFuture.pollFut, storeOf, hOption]

/-- Claim C1 witness: with the always-succeeding service, `max_items` 2 and
two accepted messages on distinct slots, the first message's slot is resolved
exactly once and its future polls to a resolved value. -/
theorem response_future_exactly_once_witness :
    ((runWorker exSvcOk 2 exMsgs 0).1.map Prod.fst).count 10 = 1 ∧
    ResponseFuture.pollFut (ResponseFuture.new 10)
        (storeOf (runWorker exSvcOk 2 exMsgs 0).1) ≠ Poll.pending :=
  response_future_resolves_exactly_once exSvcOk 2 exMsgs 0 (by decide)
    { request := 5, span := 0, tx := 10 } (by decide)

end TowerBatch

namespace ZebraChain

/-- Claim C9: for every `Bctv14Proof` value, `clone` followed by the type's
own equality is the identity round-trip: the manual `Clone` copies all 296
bytes and `PartialEq` compares all 296 bytes, so `p.clone() == p`. -/
theorem bctv14_clone_roundtrip (p : Bctv14Proof) :
    Bctv14Proof.eq (Bctv14Proof.clone p) p = true := by
  have h : (List.replicate 296 (0 : Nat)).length = p.bytes.length := by
    rw [List.length_replicate, p.len]
  simp only [Bctv14Proof.eq, Bctv14Proof.clone, copy_from_slice, if_pos h]
  exact beq_self_eq_true p.bytes

end ZebraChain

namespace ZebraNetwork

theorem HSet.mem_insert {α : Type} [DecidableEq α] (s : HSet α) (a b : α) :
    b ∈ (s.insert a).elems ↔ b = a ∨ b ∈ s.elems := by
  unfold HSet.insert
  split
  · rename_i h
    constructor
    · exact Or.inr
    · rintro (rfl | hb)
      · exact h
      · exact hb
  · simp [List.mem_cons]

theorem HSet.mem_foldl_insert {α : Type} [DecidableEq α] (l : List α)
    (s : HSet α) (a : α) :
    a ∈ (l.foldl HSet.insert s).elems ↔ a ∈ s.elems ∨ a ∈ l := by
  induction l generalizing s with
  | nil => simp
  | cons x xs ih =>
      rw [List.foldl_cons, ih, HSet.mem_insert]
      simp [List.mem_cons]
      tauto

theorem HSet.mem_ofList {α : Type} [DecidableEq α] (l : List α) (a : α) :
    a ∈ (HSet.ofList l).elems ↔ a ∈ l := by
  rw [HSet.ofList, HSet.mem_foldl_insert]
  simp [HSet.empty]

/-- Claim C10: the payload of every `Request::BlocksByHash` is a hash set, so
each block header hash occurs at most once in it, and collecting a caller's
possibly-duplicated list into the set collapses duplicates while keeping
exactly the hashes the caller passed. -/
theorem blocks_by_hash_nodup (s : HSet BlockHeaderHash) (a : BlockHeaderHash)
    (l : List BlockHeaderHash) :
    (Request.BlocksByHash s).blocks_by_hash_payload.count a ≤ 1 ∧
    (a ∈ (HSet.ofList l).elems ↔ a ∈ l) := by
  constructor
  · exact List.nodup_iff_count_le_one.mp s.nodup a
  · exact HSet.mem_ofList l a

end ZebraNetwork
